import Mathlib

/-!
Verification of the bun-osv-scanner severity-classification and
advisory-construction pipeline.

The definitions below are a shallow embedding of the TypeScript sources:
  - src/core/severity.ts        (labels, thresholds, classifyPackageSeverity)
  - src/app/securityService.ts  (buildAdvisories, selectPrimaryVulnerability,
                                 selectReferenceUrl)
  - src/boot/scanner.ts         (applyPolicy, the stale-lock drift logic)
  - src/types/osv.ts            (the OSV data model)

Conventions of the embedding:
  - JS strings are Lean `String`; optional fields are `Option`.
  - JS numbers are modelled as exact rationals (ℚ).  `parseFloat` followed by
    the `Number.isFinite` filter is modelled by `parseFloat : String → Option ℚ`
    implementing the JS decimal-literal prefix grammar; NaN and ±Infinity both
    become `none` (exactly the values the source filters out).
  - Asynchronous I/O (the actual OSV scan) is not modelled; functions that
    consume a scan result take it as a parameter.
-/

/-- Advisory levels returned to Bun (severity.ts: ADVISORY_LEVEL_FATAL / WARN). -/
inductive AdvisoryLevel where
  | fatal
  | warn
deriving DecidableEq, Repr

/-- Dependency coordinate (types/dependency.ts): ecosystem, name, version. -/
structure DependencyCoordinate where
  ecosystem : String
  name : String
  version : String
deriving DecidableEq, Repr

/-- CVSS (or other) severity score vector (types/osv.ts OsvSeverityScore). -/
structure OsvSeverityScore where
  type : String
  score : String
deriving DecidableEq, Repr

/-- Reference entry linked within an OSV advisory (types/osv.ts OsvReference). -/
structure OsvReference where
  type : String
  url : String
deriving DecidableEq, Repr

/-- The databaseSpecific / database_specific object, restricted to the one
field the classifier reads. -/
structure OsvDatabaseSpecific where
  severity : Option String
deriving DecidableEq, Repr

/-- Individual OSV vulnerability (types/osv.ts OsvVulnerability), restricted to
the fields the classifier and advisory builder read.  `summary` is declared
required in the TS type but the builder accesses it defensively, so it is
optional here (absent models a JSON payload without the field). -/
structure OsvVulnerability where
  id : String
  summary : Option String
  details : Option String
  severity : List OsvSeverityScore
  references : Option (List OsvReference)
  databaseSpecific : Option OsvDatabaseSpecific
  database_specific : Option OsvDatabaseSpecific
deriving DecidableEq, Repr

/-- Aggregated vulnerability group (types/osv.ts OsvVulnerabilityGroup). -/
structure OsvVulnerabilityGroup where
  ids : List String
  maxSeverity : Option String
deriving DecidableEq, Repr

/-- OSV findings for a single package (types/osv.ts OsvPackageFinding). -/
structure OsvPackageFinding where
  package : DependencyCoordinate
  vulnerabilities : List OsvVulnerability
  groups : Option (List OsvVulnerabilityGroup)
deriving DecidableEq, Repr

/-- Source artifact description for a scan result entry (types/osv.ts). -/
structure OsvResultSource where
  path : String
  type : String
deriving DecidableEq, Repr

/-- OSV scan result for one source artifact (types/osv.ts OsvScanResult). -/
structure OsvScanResult where
  source : OsvResultSource
  packages : List OsvPackageFinding
deriving DecidableEq, Repr

/-- Complete OSV scanner payload body (types/osv.ts OsvScanResultsBody). -/
structure OsvScanResultsBody where
  results : List OsvScanResult
deriving DecidableEq, Repr

/-- Bun security advisory (bun-security.d.ts BunSecurityAdvisory). -/
structure Advisory where
  level : AdvisoryLevel
  package : String
  url : Option String
  description : Option String
deriving DecidableEq, Repr

/-- Policy switches (scannerConfigPort.ts ScannerRuntimeConfig.policy). -/
structure PolicyConfig where
  blockMinLevel : AdvisoryLevel
  allowUnsafe : Bool
deriving DecidableEq, Repr

/-- Package entry supplied by Bun to scan() (bun-security.d.ts), restricted to
the fields the scanner reads. -/
structure BunPackage where
  name : String
  version : String
deriving DecidableEq, Repr

/-! ### JS parseFloat over exact rationals -/

/-- Digit test for the decimal grammar. -/
def isDecimalDigit (c : Char) : Bool := '0' ≤ c && c ≤ '9'

/-- JS StrWhiteSpace characters skipped by parseFloat (ASCII subset). -/
def isJsWhitespace (c : Char) : Bool :=
  c = ' ' || c = '\t' || c = '\n' || c = '\r' || c = '\x0b' || c = '\x0c'

/-- Drop leading whitespace. -/
def skipJsWhitespace : List Char → List Char
  | [] => []
  | c :: cs => if isJsWhitespace c then skipJsWhitespace cs else c :: cs

/-- Split off the longest run of leading decimal digits. -/
def spanDigits : List Char → List Char × List Char
  | [] => ([], [])
  | c :: cs =>
    if isDecimalDigit c then
      let p := spanDigits cs
      (c :: p.1, p.2)
    else ([], c :: cs)

/-- Value of a digit string read in base 10. -/
def digitsToNat (ds : List Char) : Nat :=
  ds.foldl (fun acc c => 10 * acc + (c.toNat - 48)) 0

/-- Exponent part of the decimal grammar: an e/E followed by an optional sign
and digits.  A malformed exponent is not part of the parsed prefix, which is
the same as an exponent of zero. -/
def parseExponent : List Char → Int
  | 'e' :: rest => parseSignedExponent rest
  | 'E' :: rest => parseSignedExponent rest
  | _ => 0
where
  /-- Optional sign and the digit run of the exponent. -/
  parseSignedExponent : List Char → Int
    | '+' :: rest => (digitsToNat (spanDigits rest).1 : Int)
    | '-' :: rest => -(digitsToNat (spanDigits rest).1 : Int)
    | rest => (digitsToNat (spanDigits rest).1 : Int)

/-- Unsigned decimal literal prefix: digits, an optional dot with further
digits, and an optional exponent.  Returns none when no digit is present
before or after the dot (the JS parse yields NaN there). -/
def parseDecimal (cs : List Char) : Option ℚ :=
  let ip := spanDigits cs
  match ip.2 with
  | '.' :: afterDot =>
    let fp := spanDigits afterDot
    if ip.1.isEmpty && fp.1.isEmpty then none
    else
      some (((digitsToNat ip.1 : ℚ) + (digitsToNat fp.1 : ℚ) / (10 : ℚ) ^ fp.1.length)
        * (10 : ℚ) ^ parseExponent fp.2)
  | _ =>
    if ip.1.isEmpty then none
    else some ((digitsToNat ip.1 : ℚ) * (10 : ℚ) ^ parseExponent ip.2)

/-- JS parseFloat composed with the Number.isFinite filter of severity.ts:
skip whitespace, read an optional sign and the longest decimal-literal
prefix.  Inputs whose parse is NaN (no digits) or ±Infinity (an Infinity
token has no digit prefix) yield none, exactly the values the source
filters out. -/
def parseFloat (s : String) : Option ℚ :=
  match skipJsWhitespace s.data with
  | '+' :: rest => parseDecimal rest
  | '-' :: rest => (parseDecimal rest).map (fun q => -q)
  | rest => parseDecimal rest

/-! ### Severity classifier (src/core/severity.ts) -/

/-- High/critical severities escalate to fatal advisories (severity.ts
FATAL_LABELS, a Set with exact string membership). -/
def FATAL_LABELS : List String := ["CRITICAL", "HIGH"]

/-- Moderate/low severities map to warnings (severity.ts WARN_LABELS). -/
def WARN_LABELS : List String := ["MODERATE", "LOW"]

/-- CVSS base scores at or above this threshold are treated as fatal. -/
def FATAL_CVSS_THRESHOLD : ℚ := 7

/-- CVSS base scores at or above this threshold are treated as warnings. -/
def WARN_CVSS_THRESHOLD : ℚ := 4

/-- The label a single vulnerability contributes (severity.ts line 64):
v.databaseSpecific?.severity ?? v.database_specific?.severity. -/
def effectiveSeverityLabel (v : OsvVulnerability) : Option String :=
  (v.databaseSpecific.bind (fun d => d.severity)).orElse
    (fun _ => v.database_specific.bind (fun d => d.severity))

/-- Extract all textual severity labels from the package finding
(severity.ts collectSeverityLabels: map then keep non-empty strings). -/
def collectSeverityLabels (finding : OsvPackageFinding) : List String :=
  (finding.vulnerabilities.filterMap effectiveSeverityLabel).filter
    (fun label => decide (0 < label.length))

/-- Math.max over a score list, none when empty (the allScores.length === 0
guard and the Math.max spread of findMaxNumericSeverity). -/
def maxOfScores : List ℚ → Option ℚ
  | [] => none
  | x :: xs => some (xs.foldl max x)

/-- Extract maximum numeric severity score from vulnerability groups or
entries (severity.ts findMaxNumericSeverity). -/
def findMaxNumericSeverity (finding : OsvPackageFinding) : Option ℚ :=
  let groupScores := (finding.groups.getD []).filterMap
    (fun group => parseFloat (group.maxSeverity.getD ""))
  let vulnerabilityScores := (finding.vulnerabilities.map
    (fun v => v.severity)).flatten.filterMap (fun signal => parseFloat signal.score)
  maxOfScores (groupScores ++ vulnerabilityScores)

/-- The numericSeverity !== null && numericSeverity >= threshold test of
classifyPackageSeverity. -/
def scoreAtLeast (numericSeverity : Option ℚ) (threshold : ℚ) : Bool :=
  match numericSeverity with
  | none => false
  | some q => decide (threshold ≤ q)

/-- Determine the advisory level Bun should return for the supplied package
finding (severity.ts classifyPackageSeverity). -/
def classifyPackageSeverity (finding : OsvPackageFinding) : Option AdvisoryLevel :=
  let labels := collectSeverityLabels finding
  if labels.any (fun label => FATAL_LABELS.contains label) then
    some AdvisoryLevel.fatal
  else
    let numericSeverity := findMaxNumericSeverity finding
    if scoreAtLeast numericSeverity FATAL_CVSS_THRESHOLD then
      some AdvisoryLevel.fatal
    else if labels.any (fun label => WARN_LABELS.contains label) then
      some AdvisoryLevel.warn
    else if scoreAtLeast numericSeverity WARN_CVSS_THRESHOLD then
      some AdvisoryLevel.warn
    else
      none

/-! ### Advisory builder (src/app/securityService.ts) -/

/-- Select the vulnerability entry to display in the advisory
(securityService.ts selectPrimaryVulnerability: the first list entry). -/
def selectPrimaryVulnerability (finding : OsvPackageFinding) : Option OsvVulnerability :=
  match finding.vulnerabilities with
  | [] => none
  | v :: _ => some v

/-- Pick the most relevant reference URL if available (securityService.ts
selectReferenceUrl): first ADVISORY, else first WEB, else the first
reference, else none. -/
def selectReferenceUrl (references : List OsvReference) : Option String :=
  match references.find? (fun ref => ref.type == "ADVISORY") with
  | some advisoryRef => some advisoryRef.url
  | none =>
    match references.find? (fun ref => ref.type == "WEB") with
    | some webRef => some webRef.url
    | none => (references.head?).map (fun ref => ref.url)

/-- Convert OSV scan results into Bun security advisories (securityService.ts
buildAdvisories).  The nested for-loops with push are rendered as a flatMap
followed by a filterMap in source order. -/
def buildAdvisories (body : OsvScanResultsBody)
    (classify : OsvPackageFinding → Option AdvisoryLevel) : List Advisory :=
  (body.results.flatMap (fun result => result.packages)).filterMap
    (fun finding =>
      match classify finding with
      | none => none
      | some level =>
        let primary := selectPrimaryVulnerability finding
        some {
          level := level
          package := finding.package.name
          url := match primary with
                 | some p => selectReferenceUrl (p.references.getD [])
                 | none => none
          description := (primary.bind (fun p => p.summary)).orElse
            (fun _ => primary.bind (fun p => p.details)) })

/-! ### Policy transform (src/boot/scanner.ts applyPolicy) -/

/-- Apply policy transformations to advisory levels (scanner.ts applyPolicy):
with no policy the input passes through; otherwise warn advisories escalate
to fatal when blockMinLevel is warn, and afterwards fatal advisories
downgrade to warn when allowUnsafe is set. -/
def applyPolicy (advisories : List Advisory) (policy : Option PolicyConfig) :
    List Advisory :=
  match policy with
  | none => advisories
  | some p =>
    let escalated :=
      if p.blockMinLevel = AdvisoryLevel.warn then
        advisories.map (fun a =>
          if a.level = AdvisoryLevel.warn then
            { a with level := AdvisoryLevel.fatal }
          else a)
      else advisories
    let downgraded :=
      if p.allowUnsafe then
        escalated.map (fun a =>
          if a.level = AdvisoryLevel.fatal then
            { a with level := AdvisoryLevel.warn }
          else a)
      else escalated
    downgraded

/-! ### Stale-lock drift logic (src/boot/scanner.ts, scan with lock present) -/

/-- Canonical name@version key for a parsed lock coordinate
(scanner.ts line 393). -/
def coordinateKey (c : DependencyCoordinate) : String :=
  c.name ++ "@" ++ c.version

/-- Canonical name@version key for a package supplied by Bun
(scanner.ts line 395). -/
def bunPackageKey (p : BunPackage) : String :=
  p.name ++ "@" ++ p.version

/-- The fixed stale-lock warning advisory (scanner.ts lines 422-428). -/
def STALE_LOCK_ADVISORY : Advisory :=
  { level := AdvisoryLevel.warn
    package := "bun.lock"
    url := none
    description :=
      some "Lock contents differ from provided package list (potentially stale lock)" }

/-- The mismatch computation of scanner.ts lines 396-406: the two JS Sets
differ when their sizes (numbers of distinct keys) differ, or some provided
key is missing from the lock set. -/
def lockPackagesMismatch (lockKeys pkgKeys : List String) : Bool :=
  decide (lockKeys.dedup.length ≠ pkgKeys.dedup.length)
    || pkgKeys.any (fun k => decide (k ∉ lockKeys))

/-- The drift-append-and-policy stage of createScanner.scan when bun.lock is
present and parses (scanner.ts lines 390-455).  The asynchronous scan that
produces the base advisory list is I/O and enters as the scanAdvisories
parameter; staleLockWarnEnabled models
process.env.BUN_OSV_ENABLE_STALE_LOCK_WARN === "1". -/
def scanWithLock (lockCoordinates : List DependencyCoordinate)
    (packages : List BunPackage) (staleLockWarnEnabled : Bool)
    (scanAdvisories : List Advisory) (policy : Option PolicyConfig) :
    List Advisory :=
  let lockKeys := lockCoordinates.map coordinateKey
  let pkgKeys := packages.map bunPackageKey
  let mismatch := lockPackagesMismatch lockKeys pkgKeys
  let staleWarn : Option Advisory :=
    if mismatch && staleLockWarnEnabled then some STALE_LOCK_ADVISORY else none
  let withStale :=
    match staleWarn with
    | some w =>
      if 0 < scanAdvisories.length then scanAdvisories ++ [w] else scanAdvisories
    | none => scanAdvisories
  applyPolicy withStale policy

/-! ### Spec-side helper notions used by the theorems -/

/-- Order on classification outcomes: no advisory below warn below fatal. -/
def advisoryRank : Option AdvisoryLevel → Nat
  | none => 0
  | some AdvisoryLevel.warn => 1
  | some AdvisoryLevel.fatal => 2

/-- The label-free numeric classification described by the spec: maximum
score at or above 7.0 is fatal, at or above 4.0 is warn, otherwise nothing. -/
def numericLevel : Option ℚ → Option AdvisoryLevel
  | some score =>
    if FATAL_CVSS_THRESHOLD ≤ score then some AdvisoryLevel.fatal
    else if WARN_CVSS_THRESHOLD ≤ score then some AdvisoryLevel.warn
    else none
  | none => none

/-- A finding together with one extra vulnerability record appended. -/
def appendVulnerability (finding : OsvPackageFinding) (v : OsvVulnerability) :
    OsvPackageFinding :=
  { finding with vulnerabilities := finding.vulnerabilities ++ [v] }

/-- Whether some collected label sits in FATAL_LABELS (the first guard of
classifyPackageSeverity, factored out for the proofs). -/
def anyFatalLabel (finding : OsvPackageFinding) : Bool :=
  (collectSeverityLabels finding).any (fun label => FATAL_LABELS.contains label)

/-- Whether some collected label sits in WARN_LABELS (the third guard of
classifyPackageSeverity, factored out for the proofs). -/
def anyWarnLabel (finding : OsvPackageFinding) : Bool :=
  (collectSeverityLabels finding).any (fun label => WARN_LABELS.contains label)

/-- classifyPackageSeverity written through the factored guards. -/
lemma classify_spec (finding : OsvPackageFinding) :
    classifyPackageSeverity finding =
      if anyFatalLabel finding then some AdvisoryLevel.fatal
      else if scoreAtLeast (findMaxNumericSeverity finding) FATAL_CVSS_THRESHOLD then
        some AdvisoryLevel.fatal
      else if anyWarnLabel finding then some AdvisoryLevel.warn
      else if scoreAtLeast (findMaxNumericSeverity finding) WARN_CVSS_THRESHOLD then
        some AdvisoryLevel.warn
      else none := rfl

/-- With no canonical label signal the classifier is exactly the numeric
threshold function. -/
lemma classify_of_no_canonical_labels (finding : OsvPackageFinding)
    (hf : anyFatalLabel finding = false) (hw : anyWarnLabel finding = false) :
    classifyPackageSeverity finding = numericLevel (findMaxNumericSeverity finding) := by
  rw [classify_spec, hf, hw]
  cases h : findMaxNumericSeverity finding with
  | none => simp [numericLevel, scoreAtLeast]
  | some q =>
    by_cases h7 : FATAL_CVSS_THRESHOLD ≤ q
    · simp [numericLevel, scoreAtLeast, h7]
    · by_cases h4 : WARN_CVSS_THRESHOLD ≤ q
      · simp [numericLevel, scoreAtLeast, h7, h4]
      · simp [numericLevel, scoreAtLeast, h7, h4]

/-- Labels of a finding with an appended vulnerability split into an append. -/
lemma collectSeverityLabels_append (finding : OsvPackageFinding) (v : OsvVulnerability) :
    collectSeverityLabels (appendVulnerability finding v)
      = collectSeverityLabels finding
        ++ ([v].filterMap effectiveSeverityLabel).filter
            (fun label => decide (0 < label.length)) := by
  simp only [collectSeverityLabels, appendVulnerability, List.filterMap_append,
    List.filter_append]

/-- Appending a vulnerability preserves a positive fatal-label signal. -/
lemma anyFatalLabel_mono (finding : OsvPackageFinding) (v : OsvVulnerability)
    (h : anyFatalLabel finding = true) :
    anyFatalLabel (appendVulnerability finding v) = true := by
  unfold anyFatalLabel at h ⊢
  rw [collectSeverityLabels_append, List.any_append, h, Bool.true_or]

/-- Appending a vulnerability preserves a positive warn-label signal. -/
lemma anyWarnLabel_mono (finding : OsvPackageFinding) (v : OsvVulnerability)
    (h : anyWarnLabel finding = true) :
    anyWarnLabel (appendVulnerability finding v) = true := by
  unfold anyWarnLabel at h ⊢
  rw [collectSeverityLabels_append, List.any_append, h, Bool.true_or]

/-- A foldl over max never drops below its accumulator. -/
lemma le_foldl_max (l : List ℚ) (b : ℚ) : b ≤ l.foldl max b := by
  induction l generalizing b with
  | nil => exact le_refl b
  | cons c cs ih => exact le_trans (le_max_left b c) (ih (max b c))

/-- Extending the score list can only raise the maximum. -/
lemma maxOfScores_append_mono (l e : List ℚ) (q : ℚ) (h : maxOfScores l = some q) :
    ∃ r, maxOfScores (l ++ e) = some r ∧ q ≤ r := by
  cases l with
  | nil => simp [maxOfScores] at h
  | cons x xs =>
    simp only [maxOfScores, Option.some.injEq] at h
    refine ⟨(xs ++ e).foldl max x, by simp [maxOfScores], ?_⟩
    rw [List.foldl_append, h]
    exact le_foldl_max e q

/-- The score list of a finding with an appended vulnerability splits into
an append (groups are untouched and the new scores come last). -/
lemma findMaxNumericSeverity_append (finding : OsvPackageFinding) (v : OsvVulnerability) :
    findMaxNumericSeverity (appendVulnerability finding v)
      = maxOfScores
          (((finding.groups.getD []).filterMap
              (fun group => parseFloat (group.maxSeverity.getD ""))
            ++ (finding.vulnerabilities.map (fun w => w.severity)).flatten.filterMap
                (fun signal => parseFloat signal.score))
           ++ v.severity.filterMap (fun signal => parseFloat signal.score)) := by
  simp [findMaxNumericSeverity, appendVulnerability, List.map_append,
    List.flatten_append, List.filterMap_append, List.append_assoc]

/-- Appending a vulnerability preserves any met numeric threshold. -/
lemma scoreAtLeast_mono (finding : OsvPackageFinding) (v : OsvVulnerability) (t : ℚ)
    (h : scoreAtLeast (findMaxNumericSeverity finding) t = true) :
    scoreAtLeast (findMaxNumericSeverity (appendVulnerability finding v)) t = true := by
  unfold scoreAtLeast at h
  cases hq : findMaxNumericSeverity finding with
  | none => rw [hq] at h; exact absurd h (by simp)
  | some q =>
    rw [hq] at h
    have htq : t ≤ q := of_decide_eq_true h
    unfold findMaxNumericSeverity at hq
    obtain ⟨r, hr, hqr⟩ := maxOfScores_append_mono _
      (v.severity.filterMap (fun signal => parseFloat signal.score)) q hq
    rw [findMaxNumericSeverity_append, hr]
    simpa [scoreAtLeast] using le_trans htq hqr

/-- The per-advisory effect of applyPolicy with a present policy: conditional
escalation followed by conditional downgrade. -/
def policyStep (p : PolicyConfig) (a : Advisory) : Advisory :=
  let escalated :=
    if p.blockMinLevel = AdvisoryLevel.warn then
      (if a.level = AdvisoryLevel.warn then { a with level := AdvisoryLevel.fatal } else a)
    else a
  if p.allowUnsafe then
    (if escalated.level = AdvisoryLevel.fatal then
      { escalated with level := AdvisoryLevel.warn }
    else escalated)
  else escalated

/-- applyPolicy with a present policy is a map of the per-advisory step. -/
lemma applyPolicy_some_eq_map (advisories : List Advisory) (p : PolicyConfig) :
    applyPolicy advisories (some p) = advisories.map (policyStep p) := by
  unfold applyPolicy policyStep
  by_cases hb : p.blockMinLevel = AdvisoryLevel.warn <;>
    by_cases hu : p.allowUnsafe = true <;>
      simp [hb, hu, List.map_map, Function.comp_def]

/-- The per-advisory step never changes package, url or description. -/
lemma policyStep_frame (p : PolicyConfig) (a : Advisory) :
    (policyStep p a).package = a.package ∧ (policyStep p a).url = a.url ∧
      (policyStep p a).description = a.description := by
  obtain ⟨lvl, pkg, url, desc⟩ := a
  obtain ⟨bml, au⟩ := p
  cases bml <;> cases au <;> cases lvl <;> simp [policyStep]

/-- The per-advisory step is idempotent. -/
lemma policyStep_idem (p : PolicyConfig) (a : Advisory) :
    policyStep p (policyStep p a) = policyStep p a := by
  obtain ⟨lvl, pkg, url, desc⟩ := a
  obtain ⟨bml, au⟩ := p
  cases bml <;> cases au <;> cases lvl <;> simp [policyStep]

/-- Under blockMinLevel = warn with allowUnsafe, every advisory lands on warn. -/
lemma policyStep_warn_allowUnsafe (a : Advisory) :
    policyStep ⟨AdvisoryLevel.warn, true⟩ a = { a with level := AdvisoryLevel.warn } := by
  obtain ⟨lvl, pkg, url, desc⟩ := a
  cases lvl <;> simp [policyStep]

/-- The boolean mismatch test of scanner.ts agrees with set equality of the
two key sets: it is false exactly when the lock keys and the package keys
form the same set. -/
lemma lockPackagesMismatch_eq_false_iff (lockKeys pkgKeys : List String) :
    lockPackagesMismatch lockKeys pkgKeys = false ↔
      lockKeys.toFinset = pkgKeys.toFinset := by
  unfold lockPackagesMismatch
  rw [Bool.or_eq_false_iff]
  constructor
  · rintro ⟨hlen, hany⟩
    have hlen2 : lockKeys.dedup.length = pkgKeys.dedup.length := by
      by_contra hne
      rw [decide_eq_false_iff_not] at hlen
      exact hlen hne
    have hmem : ∀ k ∈ pkgKeys, k ∈ lockKeys := by
      intro k hk
      have := List.any_eq_false.mp hany k hk
      simpa using this
    have hsub : pkgKeys.toFinset ⊆ lockKeys.toFinset := by
      intro x hx
      exact List.mem_toFinset.mpr (hmem x (List.mem_toFinset.mp hx))
    have hcard : lockKeys.toFinset.card ≤ pkgKeys.toFinset.card := by
      rw [List.card_toFinset, List.card_toFinset, hlen2]
    exact (Finset.eq_of_subset_of_card_le hsub hcard).symm
  · intro heq
    constructor
    · rw [decide_eq_false_iff_not]
      intro hne
      apply hne
      rw [← List.card_toFinset, ← List.card_toFinset, heq]
    · rw [List.any_eq_false]
      intro k hk
      have : k ∈ pkgKeys.toFinset := List.mem_toFinset.mpr hk
      rw [← heq] at this
      simpa using List.mem_toFinset.mp this

/-! ### Claim theorems -/

/-- C1: for every PackageFinding that contains at least one vulnerability
whose textual severity label is CRITICAL or HIGH, classifyPackageSeverity
returns fatal, regardless of any simultaneously-present LOW/MODERATE labels
or of any numeric scores (label-based fatal has highest precedence). -/
theorem C1_label_fatal_precedence (finding : OsvPackageFinding)
    (h : ∃ v ∈ finding.vulnerabilities,
      effectiveSeverityLabel v = some "CRITICAL" ∨
        effectiveSeverityLabel v = some "HIGH") :
    classifyPackageSeverity finding = some AdvisoryLevel.fatal := by
  obtain ⟨v, hv, hl⟩ := h
  have hfatal : anyFatalLabel finding = true := by
    apply List.any_eq_true.mpr
    rcases hl with hc | hc
    · refine ⟨"CRITICAL", ?_, by decide⟩
      unfold collectSeverityLabels
      exact List.mem_filter.mpr ⟨List.mem_filterMap.mpr ⟨v, hv, hc⟩, by decide⟩
    · refine ⟨"HIGH", ?_, by decide⟩
      unfold collectSeverityLabels
      exact List.mem_filter.mpr ⟨List.mem_filterMap.mpr ⟨v, hv, hc⟩, by decide⟩
  rw [classify_spec, hfatal]
  simp

/-- A finding carrying a CRITICAL label next to a LOW label and a low score. -/
def c1Finding : OsvPackageFinding :=
  { package := ⟨"npm", "event-stream", "3.3.6"⟩
    vulnerabilities :=
      [{ id := "GHSA-mh6f", summary := some "critical issue", details := none,
         severity := [], references := none,
         databaseSpecific := some ⟨some "CRITICAL"⟩, database_specific := none },
       { id := "GHSA-low", summary := none, details := none,
         severity := [⟨"CVSS_V3", "2.1"⟩], references := none,
         databaseSpecific := none, database_specific := some ⟨some "LOW"⟩ }]
    groups := none }

/-- Witness for C1 at a finding mixing CRITICAL with LOW and a low score. -/
theorem C1_label_fatal_precedence_witness :
    (∃ v ∈ c1Finding.vulnerabilities,
      effectiveSeverityLabel v = some "CRITICAL" ∨
        effectiveSeverityLabel v = some "HIGH")
    ∧ classifyPackageSeverity c1Finding = some AdvisoryLevel.fatal :=
  ⟨by decide, C1_label_fatal_precedence c1Finding (by decide)⟩

/-- A finding with zero vulnerabilities whose groups carry a parseable
pre-aggregated score. -/
def c2GroupsFinding : OsvPackageFinding :=
  { package := ⟨"npm", "left-pad", "1.0.0"⟩
    vulnerabilities := []
    groups := some [⟨["GHSA-x"], some "9.8"⟩] }

/-- C2 counterexample: a finding with zero vulnerabilities but a groups entry
with maxSeverity 9.8 classifies fatal and the builder does emit an advisory,
contradicting the claim that the classification is null and no advisory
appears for any contents of the groups field. -/
theorem C2_counterexample :
    c2GroupsFinding.vulnerabilities = []
    ∧ classifyPackageSeverity c2GroupsFinding = some AdvisoryLevel.fatal
    ∧ buildAdvisories ⟨[⟨⟨"sbom.cdx.json", "sbom"⟩, [c2GroupsFinding]⟩]⟩
        classifyPackageSeverity
      = [⟨AdvisoryLevel.fatal, "left-pad", none, none⟩] := by
  with_unfolding_all decide

/-- C2 (amended): for every PackageFinding whose vulnerability list is empty
and whose groups contain no parseable maxSeverity score, classification
returns null and the advisory builder emits no advisory for that finding. -/
theorem C2_empty_finding_no_advisory (finding : OsvPackageFinding)
    (src : OsvResultSource)
    (hempty : finding.vulnerabilities = [])
    (hgroups : ∀ g ∈ finding.groups.getD [],
      parseFloat (g.maxSeverity.getD "") = none) :
    classifyPackageSeverity finding = none
    ∧ buildAdvisories ⟨[⟨src, [finding]⟩]⟩ classifyPackageSeverity = [] := by
  have hlabels : collectSeverityLabels finding = [] := by
    unfold collectSeverityLabels
    rw [hempty]
    rfl
  have hmax : findMaxNumericSeverity finding = none := by
    unfold findMaxNumericSeverity
    rw [hempty, List.filterMap_eq_nil_iff.mpr hgroups]
    rfl
  have hclass : classifyPackageSeverity finding = none := by
    rw [classify_spec]
    simp [anyFatalLabel, anyWarnLabel, hlabels, hmax, scoreAtLeast]
  refine ⟨hclass, ?_⟩
  simp [buildAdvisories, hclass]

/-- A finding with zero vulnerabilities and only an unparseable group score. -/
def c2EmptyFinding : OsvPackageFinding :=
  { package := ⟨"npm", "ok-pkg", "2.0.0"⟩
    vulnerabilities := []
    groups := some [⟨["GHSA-y"], some "N/A"⟩] }

/-- Witness for the amended C2 at an empty finding with an unparseable
groups score. -/
theorem C2_empty_finding_no_advisory_witness :
    (c2EmptyFinding.vulnerabilities = []
      ∧ ∀ g ∈ c2EmptyFinding.groups.getD [],
          parseFloat (g.maxSeverity.getD "") = none)
    ∧ (classifyPackageSeverity c2EmptyFinding = none
        ∧ buildAdvisories ⟨[⟨⟨"sbom.cdx.json", "sbom"⟩, [c2EmptyFinding]⟩]⟩
            classifyPackageSeverity = []) :=
  ⟨⟨rfl, by with_unfolding_all decide⟩,
    C2_empty_finding_no_advisory c2EmptyFinding ⟨"sbom.cdx.json", "sbom"⟩ rfl
      (by with_unfolding_all decide)⟩

/-- A finding whose single vulnerability carries one severity score string
and no textual label. -/
def singleScoreFinding (score : String) : OsvPackageFinding :=
  { package := ⟨"npm", "pkg", "1.0.0"⟩
    vulnerabilities :=
      [{ id := "OSV-1", summary := none, details := none,
         severity := [⟨"CVSS_V3", score⟩], references := none,
         databaseSpecific := none, database_specific := none }]
    groups := none }

/-- C3: for every PackageFinding with no textual severity labels the
classifier returns exactly the numeric threshold function of the maximum
parseable score (fatal at 7.0 and above, warn at 4.0 and above, nothing
below); concretely a single score 7.0 gives fatal, 6.9 gives warn and 3.9
gives nothing. -/
theorem C3_numeric_thresholds :
    (∀ finding : OsvPackageFinding, collectSeverityLabels finding = [] →
      classifyPackageSeverity finding = numericLevel (findMaxNumericSeverity finding))
    ∧ classifyPackageSeverity (singleScoreFinding "7.0") = some AdvisoryLevel.fatal
    ∧ classifyPackageSeverity (singleScoreFinding "6.9") = some AdvisoryLevel.warn
    ∧ classifyPackageSeverity (singleScoreFinding "3.9") = none := by
  refine ⟨?_, ?_, ?_, ?_⟩
  · intro finding h
    apply classify_of_no_canonical_labels <;> simp [anyFatalLabel, anyWarnLabel, h]
  · with_unfolding_all decide
  · with_unfolding_all decide
  · with_unfolding_all decide

/-- Witness for C3 at the single-score 6.9 finding, which has no labels. -/
theorem C3_numeric_thresholds_witness :
    collectSeverityLabels (singleScoreFinding "6.9") = []
    ∧ classifyPackageSeverity (singleScoreFinding "6.9")
        = numericLevel (findMaxNumericSeverity (singleScoreFinding "6.9")) :=
  ⟨rfl, C3_numeric_thresholds.1 (singleScoreFinding "6.9") rfl⟩

/-- C4: with blockMinLevel = warn and allowUnsafe = true every advisory ends
at level warn (escalation runs strictly first and the unsafe downgrade
strictly second), and in particular a single warn advisory comes back at
warn, not fatal. -/
theorem C4_escalate_then_downgrade (advisories : List Advisory) (a : Advisory) :
    ((applyPolicy advisories (some ⟨AdvisoryLevel.warn, true⟩)).all
      (fun x => x.level == AdvisoryLevel.warn)) = true
    ∧ applyPolicy [a] (some ⟨AdvisoryLevel.warn, true⟩)
        = [{ a with level := AdvisoryLevel.warn }] := by
  constructor
  · rw [applyPolicy_some_eq_map]
    apply List.all_eq_true.mpr
    intro x hx
    obtain ⟨y, _, rfl⟩ := List.mem_map.mp hx
    rw [policyStep_warn_allowUnsafe]
    simp
  · rw [applyPolicy_some_eq_map]
    simp [policyStep_warn_allowUnsafe]

/-- C5 counterexample: the two coordinate sets differ and another advisory
is present, yet with the stale-lock env flag unset no warn advisory naming
bun.lock is produced, contradicting the claim that the drift advisory
appears whenever the sets differ. -/
theorem C5_counterexample :
    lockPackagesMismatch
        (([⟨"npm", "a", "1.0.0"⟩] : List DependencyCoordinate).map coordinateKey)
        (([⟨"a", "1.0.0"⟩, ⟨"b", "2.0.0"⟩] : List BunPackage).map bunPackageKey) = true
    ∧ scanWithLock [⟨"npm", "a", "1.0.0"⟩] [⟨"a", "1.0.0"⟩, ⟨"b", "2.0.0"⟩] false
        [⟨AdvisoryLevel.fatal, "vuln-pkg", none, none⟩] none
      = [⟨AdvisoryLevel.fatal, "vuln-pkg", none, none⟩]
    ∧ (scanWithLock [⟨"npm", "a", "1.0.0"⟩] [⟨"a", "1.0.0"⟩, ⟨"b", "2.0.0"⟩] false
        [⟨AdvisoryLevel.fatal, "vuln-pkg", none, none⟩] none).all
        (fun adv => adv.package != "bun.lock") = true := by
  with_unfolding_all decide

/-- C5 (amended): when the stale-lock env flag is enabled, a single warn
advisory naming bun.lock with the fixed drift message is appended to the
advisory list before the policy transform runs, exactly when the two
name-at-version key sets differ and at least one other advisory is present;
with identical sets (or the flag unset, or no other advisory) nothing is
appended. -/
theorem C5_drift_advisory (lockCoordinates : List DependencyCoordinate)
    (packages : List BunPackage) (staleLockWarnEnabled : Bool)
    (scanAdvisories : List Advisory) (policy : Option PolicyConfig) :
    scanWithLock lockCoordinates packages staleLockWarnEnabled scanAdvisories policy
      = applyPolicy
          (if (lockCoordinates.map coordinateKey).toFinset
                ≠ (packages.map bunPackageKey).toFinset
              ∧ staleLockWarnEnabled = true ∧ scanAdvisories ≠ []
           then scanAdvisories ++ [STALE_LOCK_ADVISORY]
           else scanAdvisories)
          policy := by
  unfold scanWithLock
  by_cases hm : lockPackagesMismatch (lockCoordinates.map coordinateKey)
      (packages.map bunPackageKey) = false
  · have heq := (lockPackagesMismatch_eq_false_iff _ _).mp hm
    simp [hm, heq]
  · have hm2 : lockPackagesMismatch (lockCoordinates.map coordinateKey)
        (packages.map bunPackageKey) = true := by
      cases h : lockPackagesMismatch (lockCoordinates.map coordinateKey)
          (packages.map bunPackageKey)
      · exact absurd h hm
      · rfl
    have hne : (lockCoordinates.map coordinateKey).toFinset
        ≠ (packages.map bunPackageKey).toFinset := fun heq =>
      hm ((lockPackagesMismatch_eq_false_iff _ _).mpr heq)
    cases staleLockWarnEnabled with
    | false => simp [hm2, hne]
    | true =>
      by_cases hadv : scanAdvisories = []
      · subst hadv
        simp [hm2, hne]
      · have hlen : 0 < scanAdvisories.length := List.length_pos.mpr hadv
        simp [hm2, hne, hadv, hlen]

/-- C7: applying the policy transform twice with the same config yields the
same result as applying it once, for every advisory list and every policy
(including an absent one). -/
theorem C7_applyPolicy_idempotent (advisories : List Advisory)
    (policy : Option PolicyConfig) :
    applyPolicy (applyPolicy advisories policy) policy
      = applyPolicy advisories policy := by
  cases policy with
  | none => rfl
  | some p =>
    rw [applyPolicy_some_eq_map, applyPolicy_some_eq_map, List.map_map]
    apply List.map_congr_left
    intro a _
    exact policyStep_idem p a

/-- C6: for every finding that classifies non-null and has a first
vulnerability, the built advisory's url is selectReferenceUrl of that
primary vulnerability's references (first ADVISORY, else first WEB, else
first of any type, else none) and its description is the primary's summary
if present, else its details, else none. -/
theorem C6_url_description_selection (finding : OsvPackageFinding)
    (src : OsvResultSource) (v : OsvVulnerability) (rest : List OsvVulnerability)
    (level : AdvisoryLevel)
    (hv : finding.vulnerabilities = v :: rest)
    (hc : classifyPackageSeverity finding = some level) :
    buildAdvisories ⟨[⟨src, [finding]⟩]⟩ classifyPackageSeverity
      = [{ level := level
           package := finding.package.name
           url := selectReferenceUrl (v.references.getD [])
           description := v.summary.orElse (fun _ => v.details) }] := by
  simp [buildAdvisories, hc, selectPrimaryVulnerability, hv]

/-- The primary vulnerability of the C6 witness finding: a HIGH label, both
summary and details, and a WEB reference listed before an ADVISORY one. -/
def c6Vuln : OsvVulnerability :=
  { id := "GHSA-9", summary := some "summary text", details := some "details text"
    severity := []
    references := some [⟨"WEB", "https://example.com/web"⟩,
                        ⟨"ADVISORY", "https://example.com/advisory"⟩]
    databaseSpecific := some ⟨some "HIGH"⟩
    database_specific := none }

/-- The C6 witness finding wrapping c6Vuln. -/
def c6Finding : OsvPackageFinding :=
  { package := ⟨"npm", "pkg6", "1.0.0"⟩
    vulnerabilities := [c6Vuln]
    groups := none }

/-- Witness for C6 at a fatal finding whose references list WEB before
ADVISORY. -/
theorem C6_url_description_selection_witness :
    buildAdvisories ⟨[⟨⟨"sbom.cdx.json", "sbom"⟩, [c6Finding]⟩]⟩
        classifyPackageSeverity
      = [{ level := AdvisoryLevel.fatal
           package := c6Finding.package.name
           url := selectReferenceUrl (c6Vuln.references.getD [])
           description := c6Vuln.summary.orElse (fun _ => c6Vuln.details) }] :=
  C6_url_description_selection c6Finding ⟨"sbom.cdx.json", "sbom"⟩ c6Vuln []
    AdvisoryLevel.fatal rfl (by with_unfolding_all decide)

/-- A finding whose only signal is a lower-case high label. -/
def c8LowerFinding : OsvPackageFinding :=
  { package := ⟨"npm", "pkg8", "1.0.0"⟩
    vulnerabilities :=
      [{ id := "GHSA-3", summary := none, details := none, severity := [],
         references := none, databaseSpecific := some ⟨some "high"⟩,
         database_specific := none }]
    groups := none }

/-- The same finding with the canonical upper-case label. -/
def c8UpperFinding : OsvPackageFinding :=
  { package := ⟨"npm", "pkg8", "1.0.0"⟩
    vulnerabilities :=
      [{ id := "GHSA-3", summary := none, details := none, severity := [],
         references := none, databaseSpecific := some ⟨some "HIGH"⟩,
         database_specific := none }]
    groups := none }

/-- C8 counterexample: two findings differing only in the letter case of the
label high are classified differently (none versus fatal), contradicting the
claim that labels are matched case-insensitively. -/
theorem C8_counterexample :
    classifyPackageSeverity c8LowerFinding = none
    ∧ classifyPackageSeverity c8UpperFinding = some AdvisoryLevel.fatal := by
  with_unfolding_all decide

/-- C8 (amended): label matching is exact and case-sensitive: a finding none
of whose collected labels equals one of the canonical upper-case forms
CRITICAL, HIGH, MODERATE, LOW (for example a lower-case variant) gets no
label signal at all and classifies purely by the numeric thresholds. -/
theorem C8_labels_case_sensitive (finding : OsvPackageFinding)
    (h : (collectSeverityLabels finding).all
        (fun label => !(FATAL_LABELS.contains label)
          && !(WARN_LABELS.contains label)) = true) :
    classifyPackageSeverity finding
      = numericLevel (findMaxNumericSeverity finding) := by
  apply classify_of_no_canonical_labels
  · unfold anyFatalLabel
    rw [List.any_eq_false]
    intro x hx
    have hb := List.all_eq_true.mp h x hx
    rw [Bool.and_eq_true, Bool.not_eq_true', Bool.not_eq_true'] at hb
    intro hmem
    rw [hb.1] at hmem
    exact Bool.false_ne_true hmem
  · unfold anyWarnLabel
    rw [List.any_eq_false]
    intro x hx
    have hb := List.all_eq_true.mp h x hx
    rw [Bool.and_eq_true, Bool.not_eq_true', Bool.not_eq_true'] at hb
    intro hmem
    rw [hb.2] at hmem
    exact Bool.false_ne_true hmem

/-- Witness for the amended C8 at the lower-case high finding. -/
theorem C8_labels_case_sensitive_witness :
    ((collectSeverityLabels c8LowerFinding).all
        (fun label => !(FATAL_LABELS.contains label)
          && !(WARN_LABELS.contains label)) = true)
    ∧ classifyPackageSeverity c8LowerFinding
        = numericLevel (findMaxNumericSeverity c8LowerFinding) :=
  ⟨by decide, C8_labels_case_sensitive c8LowerFinding (by decide)⟩

/-- C9: the policy transform preserves length and order and rewrites only
the level field: at every position the output advisory has the input's
package, url and description, and an absent config returns the input list
unchanged. -/
theorem C9_applyPolicy_frame (advisories : List Advisory)
    (policy : Option PolicyConfig) :
    (applyPolicy advisories policy).length = advisories.length
    ∧ (∀ i : Nat,
        ((applyPolicy advisories policy)[i]?).map (fun a => a.package)
            = (advisories[i]?).map (fun a => a.package)
        ∧ ((applyPolicy advisories policy)[i]?).map (fun a => a.url)
            = (advisories[i]?).map (fun a => a.url)
        ∧ ((applyPolicy advisories policy)[i]?).map (fun a => a.description)
            = (advisories[i]?).map (fun a => a.description))
    ∧ applyPolicy advisories none = advisories := by
  refine ⟨?_, ?_, rfl⟩
  · cases policy with
    | none => rfl
    | some p => rw [applyPolicy_some_eq_map, List.length_map]
  · intro i
    cases policy with
    | none => exact ⟨rfl, rfl, rfl⟩
    | some p =>
      rw [applyPolicy_some_eq_map, List.getElem?_map]
      cases h : advisories[i]? with
      | none => simp
      | some a =>
        obtain ⟨h1, h2, h3⟩ := policyStep_frame p a
        simp [h1, h2, h3]

/-- C10: classification is monotone under adding a vulnerability: appending
a record to a finding's vulnerability list never lowers the returned level
in the order none below warn below fatal. -/
theorem C10_classification_monotone (finding : OsvPackageFinding)
    (v : OsvVulnerability) :
    advisoryRank (classifyPackageSeverity finding)
      ≤ advisoryRank (classifyPackageSeverity (appendVulnerability finding v)) := by
  rw [classify_spec finding, classify_spec (appendVulnerability finding v)]
  by_cases hF : anyFatalLabel finding = true
  · rw [hF, anyFatalLabel_mono finding v hF]
    simp [advisoryRank]
  · have hF0 : anyFatalLabel finding = false := by
      cases hc : anyFatalLabel finding
      · rfl
      · exact absurd hc hF
    rw [hF0]
    by_cases h7 : scoreAtLeast (findMaxNumericSeverity finding)
        FATAL_CVSS_THRESHOLD = true
    · have h7b := scoreAtLeast_mono finding v FATAL_CVSS_THRESHOLD h7
      rw [h7, h7b]
      cases hF2 : anyFatalLabel (appendVulnerability finding v) <;>
        simp [advisoryRank]
    · have h70 : scoreAtLeast (findMaxNumericSeverity finding)
          FATAL_CVSS_THRESHOLD = false := by
        cases hc : scoreAtLeast (findMaxNumericSeverity finding) FATAL_CVSS_THRESHOLD
        · rfl
        · exact absurd hc h7
      rw [h70]
      by_cases hW : anyWarnLabel finding = true
      · have hW2 := anyWarnLabel_mono finding v hW
        rw [hW]
        cases hF2 : anyFatalLabel (appendVulnerability finding v) <;>
          cases h72 : scoreAtLeast (findMaxNumericSeverity (appendVulnerability finding v))
              FATAL_CVSS_THRESHOLD <;>
            simp [advisoryRank, hW2]
      · have hW0 : anyWarnLabel finding = false := by
          cases hc : anyWarnLabel finding
          · rfl
          · exact absurd hc hW
        rw [hW0]
        by_cases h4 : scoreAtLeast (findMaxNumericSeverity finding)
            WARN_CVSS_THRESHOLD = true
        · have h42 := scoreAtLeast_mono finding v WARN_CVSS_THRESHOLD h4
          rw [h4]
          cases hF2 : anyFatalLabel (appendVulnerability finding v) <;>
            cases h72 : scoreAtLeast (findMaxNumericSeverity (appendVulnerability finding v))
                FATAL_CVSS_THRESHOLD <;>
              cases hW2 : anyWarnLabel (appendVulnerability finding v) <;>
                simp [advisoryRank, h42]
        · have h40 : scoreAtLeast (findMaxNumericSeverity finding)
              WARN_CVSS_THRESHOLD = false := by
            cases hc : scoreAtLeast (findMaxNumericSeverity finding) WARN_CVSS_THRESHOLD
            · rfl
            · exact absurd hc h4
          rw [h40]
          simp [advisoryRank]
